import Mathlib

/-!
Shallow embedding of the physics/collision core of the CaveStory clone
(src/Player.cpp, src/FirstCaveBat.cpp).  Floating-point game quantities are
embedded as rationals with the literal decimal values of the source constants;
elapsed times (units::MS) are naturals.  The tile map is embedded as the
function a query presents to the player: a rectangle to the list of colliding
tiles, in the provider's iteration order.
-/

namespace CaveStory

/-- Tile type tag carried by a colliding tile (Map::TileType): WALL_TILE
collides, AIR_TILE does not. -/
inductive TileType where
  | WALL_TILE
  | AIR_TILE
deriving DecidableEq

/-- Modelled from the spec: the tile-query capability returns tiles tagged
with a type and grid coordinates (`collidingTiles(rectangle) -> sequence of
{type, row, col}`); the Map class itself is not under src/. -/
structure CollisionTile where
  tile_type : TileType
  row : ℕ
  col : ℕ
deriving DecidableEq

/-- Modelled from the spec: Rectangle is an "axis-aligned box primitive with
edge accessors"; the Rectangle class is not under src/.  Constructed as
(x, y, width, height), matching the constructor calls in Player.cpp. -/
structure Rectangle where
  x : ℚ
  y : ℚ
  w : ℚ
  h : ℚ
deriving DecidableEq

def Rectangle.left (r : Rectangle) : ℚ := r.x

def Rectangle.right (r : Rectangle) : ℚ := r.x + r.w

def Rectangle.top (r : Rectangle) : ℚ := r.y

def Rectangle.bottom (r : Rectangle) : ℚ := r.y + r.h

def Rectangle.width (r : Rectangle) : ℚ := r.w

def Rectangle.height (r : Rectangle) : ℚ := r.h

/-- Modelled from the spec: a tile is one grid cell; units.h is not under
src/.  kTileSize game units per tile (32 in the original), half a tile is
kTileSize / 2. -/
def kTileSize : ℚ := 32

def kHalfTile : ℚ := kTileSize / 2

/-- Modelled from the spec: units::tileToGame converts a tile index to the
game coordinate of that tile's near edge. -/
def tileToGame (t : ℕ) : ℚ := kTileSize * t

/-- The tile-query capability consumed by the integrator: Map::getCollidingTiles. -/
def TileMap : Type := Rectangle → List CollisionTile

-- Constants from the anonymous namespace of Player.cpp.

def kWalkingAcceleration : ℚ := 0.00083007812

def kMaxSpeedX : ℚ := 0.15859375

def kFriction : ℚ := 0.00049804587

def kGravity : ℚ := 0.00078125

def kMaxSpeedY : ℚ := 0.2998046875

def kJumpSpeed : ℚ := 0.25

def kShortJumpSpeed : ℚ := kJumpSpeed / 1.5

def kAirAcceleration : ℚ := 0.0003125

def kJumpGravity : ℚ := 0.0003125

def kInvincibleTime : ℕ := 3000

def kCollisionX : Rectangle := ⟨6, 10, 20, 12⟩

def kCollisionY : Rectangle := ⟨10, 2, 12, 30⟩

/-- CollisionInfo from Player.cpp's anonymous namespace. -/
structure CollisionInfo where
  collided : Bool
  row : ℕ
  col : ℕ
deriving DecidableEq

/-- The loop body of getWallCollisionInfo: scan the tiles in provider order
and keep the first WALL_TILE. -/
def firstWallInfo : List CollisionTile → CollisionInfo
  | [] => ⟨false, 0, 0⟩
  | t :: ts =>
    if t.tile_type = TileType.WALL_TILE then ⟨true, t.row, t.col⟩
    else firstWallInfo ts

/-- getWallCollisionInfo (Player.cpp lines 67-83): query the map under the
rectangle and return the first wall tile in iteration order, if any. -/
def getWallCollisionInfo (map : TileMap) (rectangle : Rectangle) : CollisionInfo :=
  firstWallInfo (map rectangle)

inductive MotionType where
  | STANDING
  | INTERACTING
  | WALKING
  | JUMPING
  | FALLING
deriving DecidableEq

inductive HorizontalFacing where
  | LEFT
  | RIGHT
deriving DecidableEq

inductive VerticalFacing where
  | UP
  | DOWN
  | HORIZONTAL
deriving DecidableEq

structure SpriteState where
  motion_type : MotionType
  horizontal_facing : HorizontalFacing
  vertical_facing : VerticalFacing
deriving DecidableEq

/-- The player's mutable state (fields of class Player relevant to physics,
damage and classification).  The invincibility timer is modelled from the
spec ({INACTIVE, ACTIVE(remaining_ms)}; the Timer class is not under src/)
as remaining milliseconds, active while positive; health (Health class not
under src/) is modelled from the spec as a number damage subtracts from. -/
structure Player where
  x : ℚ
  y : ℚ
  velocity_x : ℚ
  velocity_y : ℚ
  acceleration_x : ℤ
  horizontal_facing : HorizontalFacing
  vertical_facing : VerticalFacing
  on_ground : Bool
  jump_active : Bool
  interacting : Bool
  health : ℤ
  invincible_timer_remaining : ℕ
deriving DecidableEq

/-- Timer::active, modelled from the spec: ACTIVE while remaining time is
positive. -/
def Player.invincibleTimerActive (p : Player) : Bool :=
  decide (0 < p.invincible_timer_remaining)

/-- Player::leftCollision (Player.cpp lines 332-340). -/
def Player.leftCollision (p : Player) (delta : ℚ) : Rectangle :=
  ⟨p.x + kCollisionX.left + delta,
   p.y + kCollisionX.top,
   kCollisionX.width / 2 - delta,
   kCollisionX.height⟩

/-- Player::rightCollision (Player.cpp lines 342-350). -/
def Player.rightCollision (p : Player) (delta : ℚ) : Rectangle :=
  ⟨p.x + kCollisionX.left + kCollisionX.width / 2,
   p.y + kCollisionX.top,
   kCollisionX.width / 2 + delta,
   kCollisionX.height⟩

/-- Player::topCollision (Player.cpp lines 352-360). -/
def Player.topCollision (p : Player) (delta : ℚ) : Rectangle :=
  ⟨p.x + kCollisionY.left,
   p.y + kCollisionY.top + delta,
   kCollisionY.width,
   kCollisionY.height / 2 - delta⟩

/-- Player::bottomCollision (Player.cpp lines 362-370). -/
def Player.bottomCollision (p : Player) (delta : ℚ) : Rectangle :=
  ⟨p.x + kCollisionY.left,
   p.y + kCollisionY.top + kCollisionY.height / 2,
   kCollisionY.width,
   kCollisionY.height / 2 + delta⟩

/-- The velocity-update step of Player::updateX (lines 374-394): integrate
the intent-scaled acceleration, clamp when the intent is negative/positive,
apply friction when the intent is zero and the player is grounded. -/
def Player.updateXVelocity (p : Player) (elapsed_time_ms : ℕ) : ℚ :=
  let acceleration_x : ℚ :=
    (if p.on_ground then kWalkingAcceleration else kAirAcceleration) *
      (p.acceleration_x : ℚ)
  let v := p.velocity_x + acceleration_x * (elapsed_time_ms : ℚ)
  if p.acceleration_x < 0 then max v (-kMaxSpeedX)
  else if 0 < p.acceleration_x then min v kMaxSpeedX
  else if p.on_ground then
    if 0 < v then max 0 (v - kFriction * (elapsed_time_ms : ℚ))
    else min 0 (v + kFriction * (elapsed_time_ms : ℚ))
  else v

/-- Player::updateX (lines 372-446): velocity step, then collision in the
direction of the delta with snap-and-zero on a wall, then the re-check in
the opposite direction (which in the left-moving branch also sets the
grounded flag). -/
def Player.updateX (p : Player) (elapsed_time_ms : ℕ) (map : TileMap) : Player :=
  let p1 : Player := { p with velocity_x := p.updateXVelocity elapsed_time_ms }
  let delta : ℚ := p1.velocity_x * (elapsed_time_ms : ℚ)
  if 0 < delta then
    let info := getWallCollisionInfo map (p1.rightCollision delta)
    let p2 : Player :=
      if info.collided then
        { p1 with x := tileToGame info.col - kCollisionX.right, velocity_x := 0 }
      else
        { p1 with x := p1.x + delta }
    let info2 := getWallCollisionInfo map (p2.leftCollision 0)
    if info2.collided then
      { p2 with x := tileToGame info2.col + kCollisionX.right }
    else p2
  else
    let info := getWallCollisionInfo map (p1.leftCollision delta)
    let p2 : Player :=
      if info.collided then
        { p1 with x := tileToGame info.col + kCollisionX.right, velocity_x := 0 }
      else
        { p1 with x := p1.x + delta }
    let info2 := getWallCollisionInfo map (p2.rightCollision 0)
    if info2.collided then
      { p2 with x := tileToGame info2.col - kCollisionX.right, on_ground := true }
    else p2

/-- The velocity-update step of Player::updateY (lines 450-455): jump
gravity while the jump is held and velocity is upward, standard gravity
otherwise; the sum is clamped to the maximum fall speed. -/
def Player.updateYVelocity (p : Player) (elapsed_time_ms : ℕ) : ℚ :=
  let gravity : ℚ :=
    if p.jump_active ∧ p.velocity_y < 0 then kJumpGravity else kGravity
  min (p.velocity_y + gravity * (elapsed_time_ms : ℚ)) kMaxSpeedY

/-- Player::updateY (lines 448-512): velocity step, then collision in the
direction of the delta, then the re-check in the opposite direction (the
up-moving branch's bottom re-check also sets the grounded flag). -/
def Player.updateY (p : Player) (elapsed_time_ms : ℕ) (map : TileMap) : Player :=
  let p1 : Player := { p with velocity_y := p.updateYVelocity elapsed_time_ms }
  let delta : ℚ := p1.velocity_y * (elapsed_time_ms : ℚ)
  if 0 < delta then
    let info := getWallCollisionInfo map (p1.bottomCollision delta)
    let p2 : Player :=
      if info.collided then
        { p1 with y := tileToGame info.row - kCollisionY.bottom,
                  velocity_y := 0, on_ground := true }
      else
        { p1 with y := p1.y + delta, on_ground := false }
    let info2 := getWallCollisionInfo map (p2.topCollision 0)
    if info2.collided then
      { p2 with y := tileToGame info2.row + kCollisionY.height }
    else p2
  else
    let info := getWallCollisionInfo map (p1.topCollision delta)
    let p2 : Player :=
      if info.collided then
        { p1 with y := tileToGame info.row + kCollisionY.height,
                  velocity_y := 0, on_ground := false }
      else
        { p1 with y := p1.y + delta, on_ground := false }
    let info2 := getWallCollisionInfo map (p2.bottomCollision 0)
    if info2.collided then
      { p2 with y := tileToGame info2.row - kCollisionY.bottom, on_ground := true }
    else p2

/-- Player::getSpriteState (lines 205-224): classify the motion from the
interacting flag, the grounded flag, the intent and the vertical velocity
sign, and pair it with the current facing. -/
def Player.getSpriteState (p : Player) : SpriteState :=
  let motion : MotionType :=
    if p.interacting then MotionType.INTERACTING
    else if p.on_ground then
      (if p.acceleration_x ≠ 0 then MotionType.WALKING else MotionType.STANDING)
    else
      (if p.velocity_y < 0 then MotionType.JUMPING else MotionType.FALLING)
  ⟨motion, p.horizontal_facing, p.vertical_facing⟩

/-- Player::startJump (lines 292-301). -/
def Player.startJump (p : Player) : Player :=
  let p1 : Player := { p with jump_active := true, interacting := false }
  if p.on_ground then { p1 with velocity_y := -kJumpSpeed } else p1

/-- Player::stopJump (lines 303-306). -/
def Player.stopJump (p : Player) : Player :=
  { p with jump_active := false }

/-- Player::takeDamage (lines 308-321): no-op while the invincibility timer
is active; otherwise subtract the damage from health, force the vertical
velocity to at most the upward short-jump speed, and reset the timer. -/
def Player.takeDamage (p : Player) (damage : ℤ) : Player :=
  if p.invincibleTimerActive then p
  else
    { p with health := p.health - damage,
             velocity_y := min p.velocity_y (-kShortJumpSpeed),
             invincible_timer_remaining := kInvincibleTime }

-- Constants from the anonymous namespace of FirstCaveBat.cpp.

def kAngularVelocity : ℚ := 120.0 / 1000.0

def kFlightAmplitude : ℚ := 5 * kHalfTile

/-- The bat's mutable state (fields of class FirstCaveBat). -/
structure FirstCaveBat where
  center_y : ℚ
  x : ℚ
  y : ℚ
  flight_angle : ℚ
  facing : HorizontalFacing
deriving DecidableEq

/-- FirstCaveBat::update (FirstCaveBat.cpp lines 26-36): advance the flight
angle, face toward the player, and place y on the sinusoid around the
flight center.  The real-valued sine of the angle in degrees,
std::sin(units::degreesToRadians(angle)), enters only through its value
and is abstracted as the function argument sinDeg. -/
def FirstCaveBat.update (sinDeg : ℚ → ℚ) (b : FirstCaveBat)
    (elapsed_time : ℕ) (player_x : ℚ) : FirstCaveBat :=
  let flight_angle := b.flight_angle + kAngularVelocity * (elapsed_time : ℚ)
  let facing :=
    if b.x + kHalfTile > player_x then HorizontalFacing.LEFT
    else HorizontalFacing.RIGHT
  { b with flight_angle := flight_angle,
           facing := facing,
           y := b.center_y + kFlightAmplitude * sinDeg flight_angle }

-- Concrete states and maps used to instantiate the theorems below.

/-- A neutral player at the origin: at rest, airborne, no intent, timer
inactive. -/
def pBase : Player :=
  ⟨0, 0, 0, 0, 0, HorizontalFacing.LEFT, VerticalFacing.HORIZONTAL,
   false, false, false, 10, 0⟩

/-- Airborne player moving right at one game unit per millisecond. -/
def pRight : Player := { pBase with velocity_x := 1 }

/-- Grounded player carrying a large rightward velocity while the intent
points left. -/
def pFast : Player := { pBase with velocity_x := 1, acceleration_x := -1, on_ground := true }

/-- Grounded player with the friction-scenario velocity and no intent. -/
def pFriction : Player := { pBase with velocity_x := 0.1, on_ground := true }

/-- Player moving upward (negative vertical velocity). -/
def pUp : Player := { pBase with velocity_y := -1 }

/-- Grounded player at rest. -/
def pGround : Player := { pBase with on_ground := true }

/-- Grounded player with rightward intent. -/
def pWalk : Player := { pBase with on_ground := true, acceleration_x := 1 }

/-- Player moving downward (positive vertical velocity). -/
def pFall : Player := { pBase with velocity_y := 1 }

/-- A map with no tiles anywhere. -/
def mapEmpty : TileMap := fun _ => []

/-- A map that reports one wall tile under every query. -/
def mapAll : TileMap := fun _ => [⟨TileType.WALL_TILE, 3, 5⟩]

/-- A map that reports a wall tile exactly under queries wider than the
half-width of the horizontal collision box, so a rightward sweep collides
while the zero-extent opposite re-check stays clear. -/
def mapWide : TileMap := fun r => if 10 < r.w then [⟨TileType.WALL_TILE, 0, 5⟩] else []

/-- C9: the state classifier returns INTERACTING when the interacting flag
is set; otherwise, when grounded, WALKING on non-zero intent and STANDING on
zero intent; otherwise JUMPING when the vertical velocity is negative and
FALLING when it is non-negative — paired with the current horizontal and
vertical facing (and, being a plain function of the state, it mutates
nothing). -/
theorem getSpriteState_classification (p : Player) :
    (p.interacting = true →
      p.getSpriteState.motion_type = MotionType.INTERACTING) ∧
    (p.interacting = false → p.on_ground = true → p.acceleration_x ≠ 0 →
      p.getSpriteState.motion_type = MotionType.WALKING) ∧
    (p.interacting = false → p.on_ground = true → p.acceleration_x = 0 →
      p.getSpriteState.motion_type = MotionType.STANDING) ∧
    (p.interacting = false → p.on_ground = false → p.velocity_y < 0 →
      p.getSpriteState.motion_type = MotionType.JUMPING) ∧
    (p.interacting = false → p.on_ground = false → 0 ≤ p.velocity_y →
      p.getSpriteState.motion_type = MotionType.FALLING) ∧
    p.getSpriteState.horizontal_facing = p.horizontal_facing ∧
    p.getSpriteState.vertical_facing = p.vertical_facing := by
  unfold Player.getSpriteState
  refine ⟨?_, ?_, ?_, ?_, ?_, rfl, rfl⟩
  · intro h; simp [h]
  · intro h1 h2 h3; simp [h1, h2, h3]
  · intro h1 h2 h3; simp [h1, h2, h3]
  · intro h1 h2 h3; simp [h1, h2, h3]
  · intro h1 h2 h3; simp [h1, h2, not_lt.mpr h3]

/-- Witness for C9: the grounded walker is classified WALKING. -/
theorem getSpriteState_classification_witness :
    pWalk.interacting = false ∧ pWalk.on_ground = true ∧ pWalk.acceleration_x ≠ 0 ∧
    pWalk.getSpriteState.motion_type = MotionType.WALKING := by
  refine ⟨rfl, rfl, by decide, ?_⟩
  exact (getSpriteState_classification pWalk).2.1 rfl rfl (by decide)

/-- C3: the vertical velocity step equals
min(velocity_y + g·elapsed, kMaxSpeedY) with g the jump gravity exactly when
the jump is held and the velocity is upward, the standard gravity otherwise;
the result never exceeds the maximum fall speed, and when the unclamped sum
is within the fall-speed bound no other modification happens (in particular
no clamp acts on upward velocity). -/
theorem updateYVelocity_gravity_formula (p : Player) (t : ℕ) :
    p.updateYVelocity t =
      min (p.velocity_y +
        (if p.jump_active ∧ p.velocity_y < 0 then kJumpGravity else kGravity) *
          (t : ℚ)) kMaxSpeedY ∧
    p.updateYVelocity t ≤ kMaxSpeedY ∧
    (p.velocity_y +
        (if p.jump_active ∧ p.velocity_y < 0 then kJumpGravity else kGravity) *
          (t : ℚ) ≤ kMaxSpeedY →
      p.updateYVelocity t =
        p.velocity_y +
          (if p.jump_active ∧ p.velocity_y < 0 then kJumpGravity else kGravity) *
            (t : ℚ)) := by
  refine ⟨rfl, min_le_right _ _, fun h => min_eq_left h⟩

/-- Witness for C3: an upward mover with the jump held keeps the jump
gravity and stays below the fall-speed clamp. -/
theorem updateYVelocity_gravity_formula_witness :
    ({ pUp with jump_active := true } : Player).velocity_y +
        (if ({ pUp with jump_active := true } : Player).jump_active ∧
            ({ pUp with jump_active := true } : Player).velocity_y < 0 then
          kJumpGravity else kGravity) * ((8 : ℕ) : ℚ) ≤ kMaxSpeedY ∧
    ({ pUp with jump_active := true } : Player).updateYVelocity 8 =
      ({ pUp with jump_active := true } : Player).velocity_y +
        (if ({ pUp with jump_active := true } : Player).jump_active ∧
            ({ pUp with jump_active := true } : Player).velocity_y < 0 then
          kJumpGravity else kGravity) * ((8 : ℕ) : ℚ) := by
  have hb : ({ pUp with jump_active := true } : Player).velocity_y +
      (if ({ pUp with jump_active := true } : Player).jump_active ∧
          ({ pUp with jump_active := true } : Player).velocity_y < 0 then
        kJumpGravity else kGravity) * ((8 : ℕ) : ℚ) ≤ kMaxSpeedY := by
    norm_num [pUp, pBase, kJumpGravity, kGravity, kMaxSpeedY]
  exact ⟨hb, (updateYVelocity_gravity_formula { pUp with jump_active := true } 8).2.2 hb⟩

/-- C7: takeDamage is a no-op while the invincibility timer is active;
otherwise it subtracts the damage from health once, forces the vertical
velocity to at most the upward short-jump speed, and activates the timer
for the full invincibility duration — so a second call inside the window
changes nothing and health moved by exactly the first amount. -/
theorem takeDamage_invincibility_gate (p : Player) (d1 d2 : ℤ) :
    (p.invincibleTimerActive = true → p.takeDamage d1 = p) ∧
    (p.invincibleTimerActive = false →
      (p.takeDamage d1).health = p.health - d1 ∧
      (p.takeDamage d1).velocity_y = min p.velocity_y (-kShortJumpSpeed) ∧
      (p.takeDamage d1).velocity_y ≤ -kShortJumpSpeed ∧
      (p.takeDamage d1).invincible_timer_remaining = kInvincibleTime ∧
      ((p.takeDamage d1).takeDamage d2) = p.takeDamage d1 ∧
      ((p.takeDamage d1).takeDamage d2).health = p.health - d1) := by
  constructor
  · intro h
    unfold Player.takeDamage
    rw [if_pos h]
  · intro h
    have h1 : p.takeDamage d1 =
        { p with health := p.health - d1,
                 velocity_y := min p.velocity_y (-kShortJumpSpeed),
                 invincible_timer_remaining := kInvincibleTime } := by
      unfold Player.takeDamage
      rw [if_neg (by simp [h])]
    have h2 : (p.takeDamage d1).invincibleTimerActive = true := by
      rw [h1]
      simp [Player.invincibleTimerActive, kInvincibleTime]
    have hNoop : ∀ q : Player, q.invincibleTimerActive = true → q.takeDamage d2 = q := by
      intro q hq
      unfold Player.takeDamage
      rw [if_pos hq]
    have h3 : (p.takeDamage d1).takeDamage d2 = p.takeDamage d1 := hNoop _ h2
    refine ⟨by rw [h1], by rw [h1], ?_, by rw [h1], h3, by rw [h3, h1]⟩
    rw [h1]
    exact min_le_right _ _

/-- Witness for C7: a vulnerable player hit twice for 2 loses exactly 2
health and ends with the timer full. -/
theorem takeDamage_invincibility_gate_witness :
    pBase.invincibleTimerActive = false ∧
    ((pBase.takeDamage 2).takeDamage 2).health = pBase.health - 2 ∧
    (pBase.takeDamage 2).invincible_timer_remaining = kInvincibleTime := by
  have h := (takeDamage_invincibility_gate pBase 2 2).2 rfl
  exact ⟨rfl, h.2.2.2.2.2, h.2.2.2.1⟩

/-- C10: the bat's update never changes x or the flight center; it advances
the flight angle by exactly the angular velocity times the elapsed time,
places y at center plus the flight amplitude times the sine of the advanced
angle, and faces LEFT exactly when the bat's x plus half a tile exceeds the
player's x. -/
theorem firstCaveBat_update_effects (sinDeg : ℚ → ℚ) (b : FirstCaveBat)
    (t : ℕ) (player_x : ℚ) :
    (b.update sinDeg t player_x).x = b.x ∧
    (b.update sinDeg t player_x).center_y = b.center_y ∧
    (b.update sinDeg t player_x).flight_angle =
      b.flight_angle + kAngularVelocity * (t : ℚ) ∧
    (b.update sinDeg t player_x).y =
      b.center_y +
        kFlightAmplitude * sinDeg (b.flight_angle + kAngularVelocity * (t : ℚ)) ∧
    ((b.update sinDeg t player_x).facing = HorizontalFacing.LEFT ↔
      b.x + kHalfTile > player_x) := by
  unfold FirstCaveBat.update
  refine ⟨rfl, rfl, rfl, rfl, ?_⟩
  split_ifs with h
  · simp [h]
  · simp [h]

/-- Counterexample to C2: with the intent pointing left against a large
rightward velocity, the velocity step clamps only at -kMaxSpeedX, so the
speed stays far above the walk-speed bound. -/
theorem updateXVelocity_unbounded_cx :
    pFast.acceleration_x ≠ 0 ∧ kMaxSpeedX < |pFast.updateXVelocity 1| := by
  refine ⟨by decide, ?_⟩
  have hEq : pFast.updateXVelocity 1 = 24979248047 / 25000000000 := by
    simp only [Player.updateXVelocity, pFast, pBase]
    norm_num [kWalkingAcceleration, kAirAcceleration, kMaxSpeedX, max_def]
  rw [hEq, abs_of_pos (by norm_num)]
  norm_num [kMaxSpeedX]

/-- C2 as amended: with a non-zero intent the velocity step clamps on the
side of the intent (at -kMaxSpeedX for a leftward intent, at kMaxSpeedX for
a rightward one), and the walk-speed bound on the magnitude is preserved
whenever it held before the step. -/
theorem updateXVelocity_intent_clamp (p : Player) (t : ℕ)
    (ha : p.acceleration_x ≠ 0) (hv : |p.velocity_x| ≤ kMaxSpeedX) :
    |p.updateXVelocity t| ≤ kMaxSpeedX ∧
    (p.acceleration_x < 0 → -kMaxSpeedX ≤ p.updateXVelocity t) ∧
    (0 < p.acceleration_x → p.updateXVelocity t ≤ kMaxSpeedX) := by
  have hvu : p.velocity_x ≤ kMaxSpeedX := (abs_le.mp hv).2
  have hvl : -kMaxSpeedX ≤ p.velocity_x := (abs_le.mp hv).1
  have ht : (0 : ℚ) ≤ (t : ℚ) := Nat.cast_nonneg t
  have hk : (0 : ℚ) ≤ kMaxSpeedX := by norm_num [kMaxSpeedX]
  simp only [Player.updateXVelocity]
  set c := (if p.on_ground = true then kWalkingAcceleration else kAirAcceleration)
    with hc_def
  set v := p.velocity_x + c * ((p.acceleration_x : ℤ) : ℚ) * (t : ℚ) with hv_def
  have hc : (0 : ℚ) < c := by
    rw [hc_def]
    split_ifs <;> norm_num [kWalkingAcceleration, kAirAcceleration]
  rcases lt_trichotomy p.acceleration_x 0 with hlt | heq | hgt
  · have ha' : ((p.acceleration_x : ℤ) : ℚ) < 0 := by exact_mod_cast hlt
    have hterm : c * ((p.acceleration_x : ℤ) : ℚ) * (t : ℚ) ≤ 0 := by
      have h1 : c * ((p.acceleration_x : ℤ) : ℚ) ≤ 0 := by nlinarith
      nlinarith
    have hvle : v ≤ kMaxSpeedX := by rw [hv_def]; linarith
    rw [if_pos hlt]
    refine ⟨?_, fun _ => le_max_right _ _, fun h => absurd h (by omega)⟩
    rw [abs_le]
    exact ⟨le_max_right _ _, max_le hvle (by linarith)⟩
  · exact absurd heq ha
  · have ha' : (0 : ℚ) < ((p.acceleration_x : ℤ) : ℚ) := by exact_mod_cast hgt
    have hterm : 0 ≤ c * ((p.acceleration_x : ℤ) : ℚ) * (t : ℚ) := by
      have h1 : 0 ≤ c * ((p.acceleration_x : ℤ) : ℚ) := by nlinarith
      nlinarith
    have hvge : -kMaxSpeedX ≤ v := by rw [hv_def]; linarith
    rw [if_neg (by omega), if_pos hgt]
    refine ⟨?_, fun h => absurd h (by omega), fun _ => min_le_right _ _⟩
    rw [abs_le]
    exact ⟨le_min hvge (by linarith), min_le_right _ _⟩

/-- Witness for amended C2: a grounded walker starting at rest stays within
the walk-speed bound after the velocity step. -/
theorem updateXVelocity_intent_clamp_witness :
    pWalk.acceleration_x ≠ 0 ∧ |pWalk.velocity_x| ≤ kMaxSpeedX ∧
    |pWalk.updateXVelocity 16| ≤ kMaxSpeedX := by
  have ha : pWalk.acceleration_x ≠ 0 := by decide
  have hv : |pWalk.velocity_x| ≤ kMaxSpeedX := by
    norm_num [pWalk, pBase, kMaxSpeedX]
  exact ⟨ha, hv, (updateXVelocity_intent_clamp pWalk 16 ha hv).1⟩

/-- Counterexample to C6: in the spec's friction scenario (grounded, zero
intent, velocity 0.1, elapsed 16 ms) the code's friction constant
0.00049804587 gives 0.09203126608, not the claimed 0.092 (which would need
friction exactly 0.0005). -/
theorem friction_scenario_cx :
    pFriction.on_ground = true ∧ pFriction.acceleration_x = 0 ∧
    pFriction.velocity_x = 0.1 ∧
    pFriction.updateXVelocity 16 = 0.09203126608 ∧
    pFriction.updateXVelocity 16 ≠ 0.092 := by
  refine ⟨rfl, rfl, by norm_num [pFriction, pBase], ?_, ?_⟩ <;>
  · simp only [Player.updateXVelocity, pFriction, pBase]
    norm_num [kFriction, kWalkingAcceleration, max_def]

/-- C6 as amended: with zero intent while grounded, a positive velocity
becomes max(0, velocity - kFriction·elapsed) and a negative one becomes
min(0, velocity + kFriction·elapsed), never crossing zero; in the spec's
scenario the code's constant kFriction = 0.00049804587 yields 0.09203126608
(approximately but not exactly 0.092). -/
theorem updateXVelocity_friction_behavior (p : Player) (t : ℕ)
    (ha : p.acceleration_x = 0) (hg : p.on_ground = true) :
    (0 < p.velocity_x →
      p.updateXVelocity t = max 0 (p.velocity_x - kFriction * (t : ℚ)) ∧
      0 ≤ p.updateXVelocity t) ∧
    (p.velocity_x < 0 →
      p.updateXVelocity t = min 0 (p.velocity_x + kFriction * (t : ℚ)) ∧
      p.updateXVelocity t ≤ 0) := by
  constructor
  · intro hv
    have hEq : p.updateXVelocity t = max 0 (p.velocity_x - kFriction * (t : ℚ)) := by
      simp only [Player.updateXVelocity, ha, hg]
      norm_num [hv]
    rw [hEq]
    exact ⟨rfl, le_max_left _ _⟩
  · intro hv
    have hEq : p.updateXVelocity t = min 0 (p.velocity_x + kFriction * (t : ℚ)) := by
      simp only [Player.updateXVelocity, ha, hg]
      norm_num [not_lt.mpr (le_of_lt hv)]
    rw [hEq]
    exact ⟨rfl, min_le_left _ _⟩

/-- Witness for amended C6: the spec scenario's state takes the max-form
friction step. -/
theorem updateXVelocity_friction_behavior_witness :
    0 < pFriction.velocity_x ∧
    pFriction.updateXVelocity 16 =
      max 0 (pFriction.velocity_x - kFriction * ((16 : ℕ) : ℚ)) := by
  have h0 : 0 < pFriction.velocity_x := by norm_num [pFriction, pBase]
  exact ⟨h0, ((updateXVelocity_friction_behavior pFriction 16 rfl rfl).1 h0).1⟩

/-- C1: in a rightward horizontal update (positive delta), a wall under the
delta-extended right collision rectangle makes the update zero the
horizontal velocity and (when the opposite-direction left re-check stays
clear) place the right collision edge exactly at the left edge of the first
wall tile in the provider's iteration order; with no wall under the swept
rectangle (and a clear re-check) x advances by exactly delta. -/
theorem updateX_moving_right_wall_snap (p : Player) (t : ℕ) (map : TileMap)
    (p1 : Player) (delta : ℚ) (info : CollisionInfo)
    (hp1 : p1 = { p with velocity_x := p.updateXVelocity t })
    (hdelta : delta = p1.velocity_x * (t : ℚ))
    (hpos : 0 < delta)
    (hinfo : info = getWallCollisionInfo map (p1.rightCollision delta)) :
    (info.collided = true →
      (p.updateX t map).velocity_x = 0 ∧
      ((getWallCollisionInfo map
          (Player.leftCollision
            { p1 with x := tileToGame info.col - kCollisionX.right, velocity_x := 0 }
            0)).collided = false →
        (p.updateX t map).x + kCollisionX.right = tileToGame info.col)) ∧
    (info.collided = false →
      (getWallCollisionInfo map
          (Player.leftCollision { p1 with x := p1.x + delta } 0)).collided = false →
      (p.updateX t map).x = p.x + delta ∧
      (p.updateX t map).velocity_x = p.updateXVelocity t) := by
  subst hp1
  subst hdelta
  subst hinfo
  have hpos' : 0 < p.updateXVelocity t * (t : ℚ) := hpos
  simp only [Player.updateX]
  rw [if_pos hpos']
  split_ifs with h2 h3 h4
  · refine ⟨fun hc => ⟨rfl, fun hrc => ?_⟩, fun hnc => ?_⟩
    · rw [h3] at hrc; cases hrc
    · rw [h2] at hnc; cases hnc
  · refine ⟨fun hc => ⟨rfl, fun hrc => ?_⟩, fun hnc => ?_⟩
    · simp only [Player.leftCollision]
      ring
    · rw [h2] at hnc; cases hnc
  · refine ⟨fun hc => ?_, fun hnc hrc => ?_⟩
    · rw [hc] at h2; exact absurd rfl h2
    · rw [h4] at hrc; cases hrc
  · refine ⟨fun hc => ?_, fun hnc hrc => ?_⟩
    · rw [hc] at h2; exact absurd rfl h2
    · exact ⟨rfl, rfl⟩

/-- Witness for C1: an airborne player sweeping right into mapWide's wall
ends with velocity zero and the right collision edge on the wall tile's
left edge. -/
theorem updateX_moving_right_wall_snap_witness :
    0 < ({ pRight with velocity_x := pRight.updateXVelocity 1 } : Player).velocity_x *
      ((1 : ℕ) : ℚ) ∧
    (pRight.updateX 1 mapWide).velocity_x = 0 ∧
    (pRight.updateX 1 mapWide).x + kCollisionX.right = tileToGame 5 := by
  have hv : pRight.updateXVelocity 1 = 1 := by
    simp only [Player.updateXVelocity, pRight, pBase]
    norm_num
  have hpos : 0 < ({ pRight with velocity_x := pRight.updateXVelocity 1 } : Player).velocity_x *
      ((1 : ℕ) : ℚ) := by
    show 0 < pRight.updateXVelocity 1 * ((1 : ℕ) : ℚ)
    rw [hv]
    norm_num
  have hinfo : (⟨true, 0, 5⟩ : CollisionInfo) =
      getWallCollisionInfo mapWide
        (Player.rightCollision { pRight with velocity_x := pRight.updateXVelocity 1 }
          (({ pRight with velocity_x := pRight.updateXVelocity 1 } : Player).velocity_x *
            ((1 : ℕ) : ℚ))) := by
    show _ = getWallCollisionInfo mapWide
      (Player.rightCollision _ (pRight.updateXVelocity 1 * ((1 : ℕ) : ℚ)))
    rw [hv]
    simp only [getWallCollisionInfo, mapWide, Player.rightCollision, pRight, pBase]
    norm_num [kCollisionX, firstWallInfo, Rectangle.width, Rectangle.height,
      Rectangle.left, Rectangle.top, Rectangle.right]
  have h := updateX_moving_right_wall_snap pRight 1 mapWide _ _ _ rfl rfl hpos hinfo
  have hc := h.1 rfl
  refine ⟨hpos, hc.1, ?_⟩
  have hrc : (getWallCollisionInfo mapWide
      (Player.leftCollision
        { { pRight with velocity_x := pRight.updateXVelocity 1 } with
          x := tileToGame (⟨true, 0, 5⟩ : CollisionInfo).col - kCollisionX.right,
          velocity_x := 0 } 0)).collided = false := by
    simp only [getWallCollisionInfo, mapWide, Player.leftCollision]
    norm_num [kCollisionX, firstWallInfo, Rectangle.width, Rectangle.height,
      Rectangle.left, Rectangle.top, Rectangle.right]
  exact hc.2 hrc

/-- C5: in the left-moving branch (delta ≤ 0), a wall under the
opposite-direction right-edge re-check snaps x so the right collision edge
touches that wall's left edge AND sets the grounded flag; in the
right-moving branch (delta > 0) the horizontal update never modifies the
grounded flag. -/
theorem updateX_recheck_grounded_asymmetry (p : Player) (t : ℕ) (map : TileMap)
    (p1 : Player) (delta : ℚ)
    (hp1 : p1 = { p with velocity_x := p.updateXVelocity t })
    (hdelta : delta = p.updateXVelocity t * (t : ℚ)) :
    (0 < delta → (p.updateX t map).on_ground = p.on_ground) ∧
    (¬ 0 < delta →
      ∀ p2 : Player,
        p2 = (if (getWallCollisionInfo map (p1.leftCollision delta)).collided then
                { p1 with
                  x := tileToGame (getWallCollisionInfo map (p1.leftCollision delta)).col +
                    kCollisionX.right,
                  velocity_x := 0 }
              else { p1 with x := p1.x + delta }) →
        (getWallCollisionInfo map (p2.rightCollision 0)).collided = true →
        (p.updateX t map).x + kCollisionX.right =
          tileToGame (getWallCollisionInfo map (p2.rightCollision 0)).col ∧
        (p.updateX t map).on_ground = true) := by
  subst hp1
  subst hdelta
  constructor
  · intro hpos
    simp only [Player.updateX]
    rw [if_pos hpos]
    split_ifs <;> rfl
  · intro hneg p2 hp2 hrc
    subst hp2
    simp only [Player.updateX] at hrc ⊢
    rw [if_neg hneg]
    split_ifs at hrc ⊢ with h2
    · refine ⟨?_, rfl⟩
      simp only [Player.rightCollision]
      ring
    · refine ⟨?_, rfl⟩
      simp only [Player.rightCollision]
      ring

/-- Witness for C5: a resting player inside mapAll's ubiquitous wall gets
snapped by the right-edge re-check and grounded. -/
theorem updateX_recheck_grounded_asymmetry_witness :
    ¬ 0 < pBase.updateXVelocity 1 * ((1 : ℕ) : ℚ) ∧
    (pBase.updateX 1 mapAll).x + kCollisionX.right = tileToGame 5 ∧
    (pBase.updateX 1 mapAll).on_ground = true := by
  have hneg : ¬ 0 < pBase.updateXVelocity 1 * ((1 : ℕ) : ℚ) := by
    simp only [Player.updateXVelocity, pBase]
    norm_num
  have h := (updateX_recheck_grounded_asymmetry pBase 1 mapAll _ _ rfl rfl).2 hneg _ rfl rfl
  exact ⟨hneg, h.1, h.2⟩

/-- Counterexample to C4: moving upward into mapAll's ubiquitous wall, the
collision in the direction of motion fires, yet the vertical update ends
with the grounded flag TRUE, because the bottom-edge re-check also finds a
wall and overrides the grounded flag the upward branch had just cleared. -/
theorem updateY_upward_collision_grounded_cx :
    ¬ 0 < pUp.updateYVelocity 1 * ((1 : ℕ) : ℚ) ∧
    (getWallCollisionInfo mapAll
      (Player.topCollision { pUp with velocity_y := pUp.updateYVelocity 1 }
        (pUp.updateYVelocity 1 * ((1 : ℕ) : ℚ)))).collided = true ∧
    (pUp.updateY 1 mapAll).on_ground = true := by
  have hAll : ∀ R, getWallCollisionInfo mapAll R = ⟨true, 3, 5⟩ := fun _ => rfl
  have hneg : ¬ 0 < pUp.updateYVelocity 1 * ((1 : ℕ) : ℚ) := by
    simp only [Player.updateYVelocity, pUp, pBase]
    norm_num [kGravity, kMaxSpeedY, min_def]
  refine ⟨hneg, by rw [hAll], ?_⟩
  simp only [Player.updateY, hAll]
  rw [if_neg hneg]
  rfl

/-- C4 as amended: a downward-motion collision sets grounded and zeroes the
vertical velocity, and a clear downward check clears grounded (the top
re-check touches neither); an upward-motion collision zeroes the vertical
velocity, but in the whole upward branch the final grounded flag equals
exactly the result of the bottom-edge re-check — it is false after an
upward collision or a clear upward check only when that re-check also finds
no wall. -/
theorem updateY_collision_grounded_effects (p : Player) (t : ℕ) (map : TileMap)
    (p1 : Player) (delta : ℚ)
    (hp1 : p1 = { p with velocity_y := p.updateYVelocity t })
    (hdelta : delta = p.updateYVelocity t * (t : ℚ)) :
    (0 < delta →
      ((getWallCollisionInfo map (p1.bottomCollision delta)).collided = true →
        (p.updateY t map).on_ground = true ∧ (p.updateY t map).velocity_y = 0) ∧
      ((getWallCollisionInfo map (p1.bottomCollision delta)).collided = false →
        (p.updateY t map).on_ground = false)) ∧
    (¬ 0 < delta →
      ∀ p2 : Player,
        p2 = (if (getWallCollisionInfo map (p1.topCollision delta)).collided then
                { p1 with
                  y := tileToGame (getWallCollisionInfo map (p1.topCollision delta)).row +
                    kCollisionY.height,
                  velocity_y := 0, on_ground := false }
              else { p1 with y := p1.y + delta, on_ground := false }) →
        ((getWallCollisionInfo map (p1.topCollision delta)).collided = true →
          (p.updateY t map).velocity_y = 0) ∧
        (p.updateY t map).on_ground =
          (getWallCollisionInfo map (p2.bottomCollision 0)).collided) := by
  subst hp1
  subst hdelta
  constructor
  · intro hpos
    simp only [Player.updateY]
    rw [if_pos hpos]
    split_ifs with h2 h3 h4 <;>
      refine ⟨fun hc => ?_, fun hnc => ?_⟩
    · exact ⟨rfl, rfl⟩
    · rw [h2] at hnc; cases hnc
    · exact ⟨rfl, rfl⟩
    · rw [h2] at hnc; cases hnc
    · rw [hc] at h2; exact absurd rfl h2
    · rfl
    · rw [hc] at h2; exact absurd rfl h2
    · rfl
  · intro hneg p2 hp2
    subst hp2
    simp only [Player.updateY]
    rw [if_neg hneg]
    split_ifs with h2 h3 h4
    · refine ⟨fun _ => rfl, ?_⟩
      rw [h3]
    · refine ⟨fun _ => rfl, ?_⟩
      rw [Bool.not_eq_true] at h3
      rw [h3]
    · refine ⟨fun hc => ?_, ?_⟩
      · rw [hc] at h2; exact absurd rfl h2
      · rw [h4]
    · refine ⟨fun hc => ?_, ?_⟩
      · rw [hc] at h2; exact absurd rfl h2
      · rw [Bool.not_eq_true] at h4
        rw [h4]

/-- Witness for amended C4: a downward mover hitting mapAll's wall ends
grounded with zero vertical velocity. -/
theorem updateY_collision_grounded_effects_witness :
    0 < pFall.updateYVelocity 1 * ((1 : ℕ) : ℚ) ∧
    (pFall.updateY 1 mapAll).on_ground = true ∧
    (pFall.updateY 1 mapAll).velocity_y = 0 := by
  have hpos : 0 < pFall.updateYVelocity 1 * ((1 : ℕ) : ℚ) := by
    simp only [Player.updateYVelocity, pFall, pBase]
    norm_num [kGravity, kMaxSpeedY, min_def]
  have h := ((updateY_collision_grounded_effects pFall 1 mapAll _ _ rfl rfl).1 hpos).1 rfl
  exact ⟨hpos, h.1, h.2⟩

/-- Counterexample to C8: immediately after a grounded startJump the
grounded flag is still set (only the vertical update clears it), so the
classifier's next evaluation reports STANDING, not JUMPING. -/
theorem startJump_immediate_classifier_cx :
    pGround.on_ground = true ∧
    pGround.startJump.velocity_y = -kJumpSpeed ∧
    pGround.startJump.getSpriteState.motion_type = MotionType.STANDING := by
  exact ⟨rfl, rfl, rfl⟩

/-- C8 as amended: startJump sets the jump-held flag always and sets
velocity_y to -kJumpSpeed exactly when grounded (airborne it leaves
velocity_y unchanged); stopJump only clears the jump-held flag, touching
neither position nor velocity; and after a grounded startJump the
classifier reports JUMPING once the next vertical update has cleared the
grounded flag (no walls nearby and elapsed time below the 800 ms in which
the jump velocity stays upward). -/
theorem startJump_stopJump_behavior (p : Player) (t : ℕ) (map : TileMap)
    (hg : p.on_ground = true) (hmap : ∀ r, map r = [])
    (ht : (t : ℚ) < 800) :
    p.startJump.jump_active = true ∧
    p.startJump.interacting = false ∧
    p.startJump.velocity_y = -kJumpSpeed ∧
    (∀ q : Player, q.on_ground = false →
      q.startJump.jump_active = true ∧ q.startJump.velocity_y = q.velocity_y) ∧
    (∀ q : Player, q.stopJump.jump_active = false ∧ q.stopJump.x = q.x ∧
      q.stopJump.y = q.y ∧ q.stopJump.velocity_x = q.velocity_x ∧
      q.stopJump.velocity_y = q.velocity_y) ∧
    (p.startJump.updateY t map).getSpriteState.motion_type = MotionType.JUMPING := by
  have hs : p.startJump =
      { p with jump_active := true, interacting := false, velocity_y := -kJumpSpeed } := by
    unfold Player.startJump
    rw [if_pos hg]
  have hair : ∀ q : Player, q.on_ground = false →
      q.startJump.jump_active = true ∧ q.startJump.velocity_y = q.velocity_y := by
    intro q hq
    unfold Player.startJump
    rw [if_neg (by rw [hq]; exact Bool.false_ne_true)]
    exact ⟨rfl, rfl⟩
  have hstop : ∀ q : Player, q.stopJump.jump_active = false ∧ q.stopJump.x = q.x ∧
      q.stopJump.y = q.y ∧ q.stopJump.velocity_x = q.velocity_x ∧
      q.stopJump.velocity_y = q.velocity_y := fun q => ⟨rfl, rfl, rfl, rfl, rfl⟩
  refine ⟨by rw [hs], by rw [hs], by rw [hs], hair, hstop, ?_⟩
  rw [hs]
  have hcond :
      ({ p with jump_active := true, interacting := false, velocity_y := -kJumpSpeed } :
        Player).jump_active = true ∧
      ({ p with jump_active := true, interacting := false, velocity_y := -kJumpSpeed } :
        Player).velocity_y < 0 := ⟨rfl, by norm_num [kJumpSpeed]⟩
  have hgsel :
      ({ p with jump_active := true, interacting := false, velocity_y := -kJumpSpeed } :
        Player).updateYVelocity t =
        min (-kJumpSpeed + kJumpGravity * (t : ℚ)) kMaxSpeedY := by
    unfold Player.updateYVelocity
    rw [if_pos hcond]
  have hvneg :
      ({ p with jump_active := true, interacting := false, velocity_y := -kJumpSpeed } :
        Player).updateYVelocity t < 0 := by
    rw [hgsel]
    have h1 : -kJumpSpeed + kJumpGravity * (t : ℚ) < 0 := by
      have h2 : kJumpGravity * (t : ℚ) < kJumpGravity * 800 := by
        apply mul_lt_mul_of_pos_left ht
        norm_num [kJumpGravity]
      norm_num [kJumpSpeed, kJumpGravity] at h2 ⊢
      linarith
    exact lt_of_le_of_lt (min_le_left _ _) h1
  have hdneg : ¬ 0 <
      ({ p with jump_active := true, interacting := false, velocity_y := -kJumpSpeed } :
        Player).updateYVelocity t * (t : ℚ) := by
    have ht0 : (0 : ℚ) ≤ (t : ℚ) := Nat.cast_nonneg t
    push_neg
    nlinarith [hvneg, ht0]
  have hEmpty : ∀ R, getWallCollisionInfo map R = ⟨false, 0, 0⟩ := by
    intro R
    rw [getWallCollisionInfo, hmap R]
    rfl
  simp [Player.updateY, hEmpty, hdneg, Player.getSpriteState, hvneg]

/-- Witness for amended C8: a grounded player jumping on the empty map with
a 16 ms tick is classified JUMPING after the vertical update. -/
theorem startJump_stopJump_behavior_witness :
    pGround.on_ground = true ∧ ((16 : ℕ) : ℚ) < 800 ∧
    pGround.startJump.velocity_y = -kJumpSpeed ∧
    (pGround.startJump.updateY 16 mapEmpty).getSpriteState.motion_type =
      MotionType.JUMPING := by
  have h := startJump_stopJump_behavior pGround 16 mapEmpty rfl (fun _ => rfl)
    (by norm_num)
  exact ⟨rfl, by norm_num, h.2.2.1, h.2.2.2.2.2⟩

end CaveStory
